import Mathlib

/-!
Shallow embedding of the typst_actix_server environment adapter
(src/docker_world.rs) and proofs about it.

Modelling conventions:
- A Rust panic (expect / unguarded indexing) is made explicit by the
  result type PRes: a computation either produces a value or panics
  with a message.
- Byte buffers (typst Bytes, Vec<u8>) are List Nat.
- OnceCell is an Option field threaded through explicit state passing:
  a call returns its result together with the updated state.
- External collaborators (std UTF-8 decoding, typst FontInfo::new and
  Font::new, the filesystem, the compiler, the PDF exporter) are
  parameters of the functions that call them, so the adapter logic is
  verified for every collaborator behaviour.
- A chrono DateTime of the local zone is modelled by the pair of its
  naive-local and naive-UTC second counts since the epoch; calendar
  field extraction uses the standard civil-from-days algorithm, and
  disk reads are counted so that memoization (no re-read) is provable.
-/

/-- Result of a Rust computation that can panic: either a value or a
panic carrying the panic message. -/
inductive PRes (α : Type) where
  | ok : α → PRes α
  | panic : String → PRes α
  deriving DecidableEq

/-- Bytes: a raw byte buffer (Vec<u8> / typst Bytes). -/
abbrev Bytes := List Nat

/-- FileId: an identifier derived from a virtual path string
(FileId::new(None, VirtualPath::new(...))). Two ids are equal iff
their virtual paths are. -/
structure FileId where
  path : String
  deriving DecidableEq

/-- The function file_id of docker_world.rs: build a FileId from a
filename string, with no package component. -/
def file_id (filename : String) : FileId :=
  { path := filename }

/-- DocumentFile: a named byte payload handed to the adapter at
construction time. -/
structure DocumentFile where
  name : FileId
  data : Bytes
  deriving DecidableEq

/-- DocumentFile::new pairs the file id of the name with the bytes. -/
def DocumentFile.new (name : String) (data : Bytes) : DocumentFile :=
  { name := file_id name, data := data }

/-- A typst Source: a file id together with its decoded text. -/
structure Source where
  id : FileId
  text : String
  deriving DecidableEq

/-- FileError: the error side of typst FileResult. The adapter never
actually constructs one, which is what claim C1 is about. -/
inductive FileError where
  | notFound : String → FileError
  deriving DecidableEq

/-- Strip a leading UTF-8 byte-order mark (the three bytes
ef bb bf), as buf.strip does with the BOM bytes in decode_utf8. -/
def stripBom (buf : Bytes) : Bytes :=
  match buf with
  | 0xef :: 0xbb :: 0xbf :: rest => rest
  | _ => buf

/-- The function decode_utf8 of docker_world.rs: remove a UTF-8 BOM,
then decode strictly as UTF-8; a decode failure is a panic with
message "What the hell" (the expect in the source). The std decoder
std::str::from_utf8 is the parameter fromUtf8. -/
def decode_utf8 (fromUtf8 : Bytes → Option String) (buf : Bytes) : PRes String :=
  match fromUtf8 (stripBom buf) with
  | some s => PRes.ok s
  | none => PRes.panic "What the hell"

/-- HashMap insert: later insertions overwrite earlier ones for the
same key. The map is modelled as a lookup function. -/
def mapInsert (m : FileId → Option Bytes) (k : FileId) (v : Bytes) :
    FileId → Option Bytes :=
  fun k' => if k' = k then some v else m k'

/-- The sources map built by DockerWorld::new: insert the main
document first, then every auxiliary document in order. -/
def buildSources (main : DocumentFile) (others : List DocumentFile) :
    FileId → Option Bytes :=
  others.foldl (fun m f => mapInsert m f.name f.data)
    (mapInsert (fun _ => none) main.name main.data)

/-- Specification-side description of the store (used only to compare
against buildSources): the payload of the LAST pair in the insertion
sequence carrying the key, scanning the pair list left to right and
letting later pairs overwrite earlier ones. -/
def specLastWriteWins (k : FileId) (l : List (FileId × Bytes)) : Option Bytes :=
  l.foldl (fun acc p => if p.1 = k then some p.2 else acc) none

/-- FontInfo: the metadata record typst extracts from a face. Its
internal fields are irrelevant to the adapter, so it is an opaque tag. -/
structure FontInfo where
  tag : Nat
  deriving DecidableEq

/-- Font: a loaded typst font handle, remembering the bytes and the
in-file face index it was constructed from. -/
structure Font where
  data : Bytes
  index : Nat
  deriving DecidableEq

/-- The backing storage of a fontdb face: a standalone file path, a
shared (memory-mapped) file path, or an in-memory binary blob. -/
inductive FaceSource where
  | file : String → FaceSource
  | shared : String → FaceSource
  | binary : FaceSource
  deriving DecidableEq

/-- A fontdb face: its backing source and in-file face index. -/
structure Face where
  source : FaceSource
  index : Nat
  deriving DecidableEq

/-- LazyFont: a font descriptor recording the face path and in-file
index, with a OnceCell slot (modelled as Option) for the decoded font.
none means the cell is empty; some c means the cell is filled with the
load result c (which is itself none when loading failed). -/
structure LazyFont where
  index : Nat
  path : String
  data : Option (Option Font)
  deriving DecidableEq

/-- LazyFont::get, as a state transformer. fs models fs::read (none is
a read failure) and fontNew models Font::new. Returns the result, the
updated descriptor, and the number of disk reads performed. If the
cell is filled, the cached value is returned with no read; otherwise
the closure runs: a failed read produces none, otherwise the font is
constructed from the bytes at the recorded face index, and the result
(even none) is stored in the cell. -/
def LazyFont.get (fs : String → Option Bytes) (fontNew : Bytes → Nat → Option Font)
    (lf : LazyFont) : Option Font × LazyFont × Nat :=
  match lf.data with
  | some cached => (cached, lf, 0)
  | none =>
      let computed :=
        match fs lf.path with
        | none => none
        | some bytes => fontNew bytes lf.index
      (computed, { lf with data := some computed }, 1)

/-- FontDb: the vector of lazy font descriptors. -/
structure FontDb where
  fonts : List LazyFont
  deriving DecidableEq

/-- FontDb::get: unguarded vector indexing self.fonts[index] panics
when the index is out of range; otherwise it delegates to
LazyFont::get. Returns the result, the updated database, and the
number of disk reads. -/
def FontDb.get (fs : String → Option Bytes) (fontNew : Bytes → Nat → Option Font)
    (db : FontDb) (index : Nat) : PRes (Option Font) × FontDb × Nat :=
  match db.fonts[index]? with
  | none => (PRes.panic "index out of bounds", db, 0)
  | some lf =>
      let r := lf.get fs fontNew
      (PRes.ok r.1, { fonts := db.fonts.set index r.2.1 }, r.2.2)

/-- The loop body of FontDb::new over the discovered faces, carrying
the book and descriptor vector as accumulators. infoNew models
FontInfo::new (metadata extraction from bytes and face index) and
faceData models Database::with_face_data (none when the face data
cannot be accessed, which the source turns into the panic
"Font load snafu" via expect). A face backed only by an in-memory
binary blob is skipped; a face whose metadata extraction returns no
info is skipped; a face with metadata gets its info appended to the
book and a fresh empty-slot descriptor appended to the vector. -/
def FontDb.newLoop (infoNew : Bytes → Nat → Option FontInfo)
    (faceData : Face → Option Bytes) :
    List Face → List FontInfo → List LazyFont →
    PRes (List FontInfo × List LazyFont)
  | [], book, fonts => PRes.ok (book, fonts)
  | f :: rest, book, fonts =>
      match f.source with
      | FaceSource.binary => FontDb.newLoop infoNew faceData rest book fonts
      | FaceSource.file p | FaceSource.shared p =>
          match faceData f with
          | none => PRes.panic "Font load snafu"
          | some bytes =>
              match infoNew bytes f.index with
              | some info =>
                  FontDb.newLoop infoNew faceData rest (book ++ [info])
                    (fonts ++ [{ index := f.index, path := p, data := none }])
              | none => FontDb.newLoop infoNew faceData rest book fonts

/-- FontDb::new: run the face loop starting from the given book (the
caller passes a mutable book) and an empty descriptor vector. The
faces list is the content of the fontdb database after loading the
font directory and the system fonts. -/
def FontDb.new (infoNew : Bytes → Nat → Option FontInfo)
    (faceData : Face → Option Bytes) (faces : List Face)
    (book : List FontInfo) : PRes (List FontInfo × FontDb) :=
  match FontDb.newLoop infoNew faceData faces book [] with
  | PRes.panic m => PRes.panic m
  | PRes.ok r => PRes.ok (r.1, { fonts := r.2 })

/-- The faces the construction loop keeps, paired as (appended book
entry, appended descriptor). Used to state that the book and the
descriptor vector are built from the same filtered face sequence. -/
def keptFaces (infoNew : Bytes → Nat → Option FontInfo)
    (faceData : Face → Option Bytes) : List Face → List (FontInfo × LazyFont)
  | [] => []
  | f :: rest =>
      match f.source with
      | FaceSource.binary => keptFaces infoNew faceData rest
      | FaceSource.file p | FaceSource.shared p =>
          match faceData f with
          | none => keptFaces infoNew faceData rest
          | some bytes =>
              match infoNew bytes f.index with
              | some info =>
                  (info, { index := f.index, path := p, data := none })
                    :: keptFaces infoNew faceData rest
              | none => keptFaces infoNew faceData rest

/-- Moment: a chrono local DateTime, determined by its naive-local and
naive-UTC second counts since the Unix epoch. -/
structure Moment where
  naiveLocal : Int
  naiveUtc : Int
  deriving DecidableEq

/-- Days since the epoch of a naive second count (floor division). -/
def secsToDays (n : Int) : Int := Int.fdiv n 86400

/-- Second within the day of a naive second count. -/
def secOfDay (n : Int) : Nat := (Int.fmod n 86400).toNat

/-- Civil (year, month, day) from a count of days since 1970-01-01,
proleptic Gregorian: the standard civil-from-days algorithm, which is
what the chrono Datelike accessors compute. -/
def civilFromDays (z0 : Int) : Int × Nat × Nat :=
  let z := z0 + 719468
  let era := Int.fdiv z 146097
  let doe := (z - era * 146097).toNat
  let yoe := (doe - doe / 1460 + doe / 36524 - doe / 146096) / 365
  let doy := doe - (365 * yoe + yoe / 4 - yoe / 100)
  let mp := (5 * doy + 2) / 153
  let d := doy - (153 * mp + 2) / 5 + 1
  let m := if mp < 10 then mp + 3 else mp - 9
  ((yoe : Int) + era * 400 + (if m ≤ 2 then 1 else 0), m, d)

/-- Calendar year of a naive second count. -/
def yearOfSecs (n : Int) : Int := (civilFromDays (secsToDays n)).1

/-- Calendar month of a naive second count. -/
def monthOfSecs (n : Int) : Nat := (civilFromDays (secsToDays n)).2.1

/-- Calendar day of month of a naive second count. -/
def dayOfSecs (n : Int) : Nat := (civilFromDays (secsToDays n)).2.2

/-- Hour of a naive second count. -/
def hourOfSecs (n : Int) : Nat := secOfDay n / 3600

/-- Minute of a naive second count. -/
def minuteOfSecs (n : Int) : Nat := secOfDay n % 3600 / 60

/-- Second of a naive second count. -/
def secondOfSecs (n : Int) : Nat := secOfDay n % 60

/-- u32 to u8 try_into: succeeds exactly when the value fits. -/
def tryIntoU8 (n : Nat) : Option Nat :=
  if n < 256 then some n else none

/-- The typst Datetime value: a plain date or a full datetime. -/
inductive Datetime where
  | date : Int → Nat → Nat → Datetime
  | datetime : Int → Nat → Nat → Nat → Nat → Nat → Datetime
  deriving DecidableEq

/-- Proleptic Gregorian leap year test. -/
def isLeapYear (y : Int) : Bool :=
  (y % 4 == 0 && y % 100 != 0) || y % 400 == 0

/-- Length of a month in a year. -/
def daysInMonth (y : Int) (m : Nat) : Nat :=
  match m with
  | 1 => 31
  | 2 => if isLeapYear y then 29 else 28
  | 3 => 31
  | 4 => 30
  | 5 => 31
  | 6 => 30
  | 7 => 31
  | 8 => 31
  | 9 => 30
  | 10 => 31
  | 11 => 30
  | 12 => 31
  | _ => 0

/-- Datetime::from_ymd: validates the month, the day against the month
length, and the year range of the time crate, returning none when any
field is out of range. -/
def Datetime.from_ymd (y : Int) (m d : Nat) : Option Datetime :=
  if 1 ≤ m ∧ m ≤ 12 ∧ -9999 ≤ y ∧ y ≤ 9999 ∧ 1 ≤ d ∧ d ≤ daysInMonth y m
  then some (Datetime.date y m d) else none

/-- Datetime::from_ymd_hms: additionally validates the time fields. -/
def Datetime.from_ymd_hms (y : Int) (mo d h mi s : Nat) : Option Datetime :=
  if 1 ≤ mo ∧ mo ≤ 12 ∧ -9999 ≤ y ∧ y ≤ 9999 ∧ 1 ≤ d ∧ d ≤ daysInMonth y mo
      ∧ h ≤ 23 ∧ mi ≤ 59 ∧ s ≤ 59
  then some (Datetime.datetime y mo d h mi s) else none

/-- The conversion chain of DockerWorld::today applied to a naive
second count: month and day go through a u8 try_into (a failure
propagates as none via the question-mark operator), then
Datetime::from_ymd validates. -/
def todayResult (naive : Int) : Option Datetime :=
  match tryIntoU8 (monthOfSecs naive) with
  | none => none
  | some mo =>
      match tryIntoU8 (dayOfSecs naive) with
      | none => none
      | some d => Datetime.from_ymd (yearOfSecs naive) mo d

/-- The conversion chain of DockerWorld::now applied to the naive
local second count of the memoized moment. -/
def nowResult (n : Int) : Option Datetime :=
  match tryIntoU8 (monthOfSecs n), tryIntoU8 (dayOfSecs n),
      tryIntoU8 (hourOfSecs n), tryIntoU8 (minuteOfSecs n),
      tryIntoU8 (secondOfSecs n) with
  | some mo, some d, some h, some mi, some s =>
      Datetime.from_ymd_hms (yearOfSecs n) mo d h mi s
  | _, _, _, _, _ => none

/-- DockerWorld: the environment adapter state. The library field of
the source is a static object no claim touches and is omitted; the
OnceCell for the memoized moment is the Option field now. -/
structure DockerWorld where
  fonts : FontDb
  book : List FontInfo
  main : FileId
  now : Option Moment
  sources : FileId → Option Bytes

/-- DockerWorld::new: build the font book and database, record the
main id, insert the main document and then every auxiliary document
into the sources map. A panic from FontDb::new propagates. -/
def DockerWorld.new (infoNew : Bytes → Nat → Option FontInfo)
    (faceData : Face → Option Bytes) (faces : List Face)
    (main_document : DocumentFile) (other_files : List DocumentFile) :
    PRes DockerWorld :=
  match FontDb.new infoNew faceData faces [] with
  | PRes.panic m => PRes.panic m
  | PRes.ok r =>
      PRes.ok
        { fonts := r.2
          book := r.1
          main := main_document.name
          now := none
          sources := buildSources main_document other_files }

/-- OnceCell::get_or_init(Local::now) on the now field: if the cell is
filled return the cached moment, otherwise capture the wall clock and
fill the cell. -/
def DockerWorld.getOrInitNow (w : DockerWorld) (wall : Moment) :
    Moment × DockerWorld :=
  match w.now with
  | some m => (m, w)
  | none => (wall, { w with now := some wall })

/-- DockerWorld::now: memoized moment, then the from_ymd_hms
conversion chain on its local calendar fields. -/
def DockerWorld.nowFn (w : DockerWorld) (wall : Moment) :
    Option Datetime × DockerWorld :=
  let r := w.getOrInitNow wall
  (nowResult r.1.naiveLocal, r.2)

/-- DockerWorld::today: memoized moment; with no offset use its naive
local time, with offset o use its naive UTC time plus o hours; then
the from_ymd conversion chain. -/
def DockerWorld.today (w : DockerWorld) (wall : Moment) (offset : Option Int) :
    Option Datetime × DockerWorld :=
  let r := w.getOrInitNow wall
  let naive : Int :=
    match offset with
    | none => r.1.naiveLocal
    | some o => r.1.naiveUtc + 3600 * o
  (todayResult naive, r.2)

/-- World::source for DockerWorld. The Rust signature is
FileResult of Source, hence the Except layer, but the body never
constructs the error side: a missing id is the panic
"No Such Source file" (the expect in the source), and present bytes
are decoded and wrapped in Ok. -/
def DockerWorld.source (w : DockerWorld) (fromUtf8 : Bytes → Option String)
    (id : FileId) : PRes (Except FileError Source) :=
  match w.sources id with
  | none => PRes.panic "No Such Source file"
  | some raw =>
      match decode_utf8 fromUtf8 raw with
      | PRes.panic m => PRes.panic m
      | PRes.ok text => PRes.ok (Except.ok { id := id, text := text })

/-- World::file for DockerWorld: look the id up, panicking with
"No Such Source file" when absent; return the raw bytes unmodified
(the error side of FileResult is never constructed). -/
def DockerWorld.file (w : DockerWorld) (id : FileId) :
    PRes (Except FileError Bytes) :=
  match w.sources id with
  | none => PRes.panic "No Such Source file"
  | some data => PRes.ok (Except.ok data)

/-- World::font for DockerWorld: delegate to FontDb::get, threading
the updated database through the adapter state. -/
def DockerWorld.font (w : DockerWorld) (fs : String → Option Bytes)
    (fontNew : Bytes → Nat → Option Font) (index : Nat) :
    PRes (Option Font) × DockerWorld × Nat :=
  let r := w.fonts.get fs fontNew index
  (r.1, { w with fonts := r.2.1 }, r.2.2)

/-- DockerWorld::compile: run the external compiler (its outcome is
the parameter compilerResult); on failure discard the diagnostics and
return the one generic error string; on success export to PDF with the
memoized moment as creation timestamp. -/
def DockerWorld.compile {Doc : Type} (w : DockerWorld)
    (pdfExport : Doc → Option Datetime → List Nat)
    (compilerResult : Except (List String) Doc) (wall : Moment) :
    Except String (List Nat) × DockerWorld :=
  match compilerResult with
  | Except.error _ => (Except.error "Something terrible has happened", w)
  | Except.ok document =>
      let r := w.nowFn wall
      (Except.ok (pdfExport document r.1), r.2)

/-! ### Test doubles and concrete inputs used by witnesses -/

/-- A concrete UTF-8 decoder restricted to ASCII input, standing in
for std::str::from_utf8 in concrete evaluations. -/
def asciiDecode : Bytes → Option String
  | [] => some ""
  | b :: rest =>
      if b < 128 then
        match asciiDecode rest with
        | some s => some (String.mk (Char.ofNat b :: s.data))
        | none => none
      else none

/-- A concrete adapter holding one document, main.typ with the two
bytes of the text hi, and no fonts. -/
def cexWorld : DockerWorld :=
  { fonts := { fonts := [] }
    book := []
    main := file_id "main.typ"
    now := none
    sources := buildSources (DocumentFile.new "main.typ" [104, 105]) [] }

/-! ### Helper lemmas -/

/-- Folding the keyed inserts of the store equals the last-write-wins
scan of the corresponding (key, payload) pair list, for every start
map. -/
theorem insert_fold_eq (l : List DocumentFile) (m0 : FileId → Option Bytes)
    (k : FileId) :
    (l.foldl (fun m f => mapInsert m f.name f.data) m0) k =
      (l.map fun f => (f.name, f.data)).foldl
        (fun acc p => if p.1 = k then some p.2 else acc) (m0 k) := by
  induction l generalizing m0 with
  | nil => rfl
  | cons f rest ih =>
      simp only [List.foldl, List.map]
      rw [ih]
      simp only [mapInsert]
      by_cases h : f.name = k
      · rw [if_pos h, if_pos h.symm]
      · rw [if_neg h, if_neg fun hh => h hh.symm]

/-- A last-write-wins scan over pairs none of which carries the key
leaves the accumulator unchanged. -/
theorem lastwins_no_key (l : List (FileId × Bytes)) (k : FileId)
    (a : Option Bytes) (h : ∀ p ∈ l, p.1 ≠ k) :
    l.foldl (fun acc p => if p.1 = k then some p.2 else acc) a = a := by
  induction l generalizing a with
  | nil => rfl
  | cons p rest ih =>
      simp only [List.foldl]
      rw [if_neg (h p (List.mem_cons_self p rest))]
      exact ih a fun q hq => h q (List.mem_cons_of_mem p hq)

/-! ### Claim theorems -/

/-- C1 (amended): for every File Identifier not present in the store,
both source(identifier) and binary_file(identifier) panic with the
message "No Such Source file" instead of returning any value — in
particular no recoverable failure value reaches the compiler. -/
theorem missing_id_panics (w : DockerWorld) (fromUtf8 : Bytes → Option String)
    (id : FileId) (h : w.sources id = none) :
    w.source fromUtf8 id = PRes.panic "No Such Source file" ∧
    w.file id = PRes.panic "No Such Source file" := by
  constructor <;> simp [DockerWorld.source, DockerWorld.file, h]

/-- C1 counterexample to the claim as stated: on a concrete adapter
built by the constructor with only main.typ present, querying the
absent identifier missing.typ makes both source and binary_file panic,
so neither returns a "no such file" failure value. -/
theorem missing_id_counterexample :
    DockerWorld.new (fun _ _ => none) (fun _ => none) []
        (DocumentFile.new "main.typ" [104, 105]) [] = PRes.ok cexWorld ∧
    cexWorld.source asciiDecode (file_id "missing.typ") =
      PRes.panic "No Such Source file" ∧
    cexWorld.file (file_id "missing.typ") = PRes.panic "No Such Source file" :=
  ⟨rfl, rfl, rfl⟩

/-- C1 witness: the amended theorem applied at the concrete adapter
and the concrete absent identifier other.typ. -/
theorem missing_id_panics_witness :
    cexWorld.source asciiDecode (file_id "other.typ") =
      PRes.panic "No Such Source file" ∧
    cexWorld.file (file_id "other.typ") = PRes.panic "No Such Source file" :=
  missing_id_panics cexWorld asciiDecode (file_id "other.typ") (by decide)

/-- C4: for a (name, bytes) pair present in the store under id, when
the bytes with a leading BOM removed decode as UTF-8 to s, source(id)
returns exactly the Source carrying s, and binary_file(id) returns
exactly the stored bytes unmodified, BOM included. -/
theorem source_and_file_exact (w : DockerWorld)
    (fromUtf8 : Bytes → Option String) (id : FileId) (b : Bytes) (s : String)
    (hb : w.sources id = some b) (hs : fromUtf8 (stripBom b) = some s) :
    w.source fromUtf8 id = PRes.ok (Except.ok { id := id, text := s }) ∧
    w.file id = PRes.ok (Except.ok b) := by
  constructor <;>
    simp [DockerWorld.source, DockerWorld.file, decode_utf8, hb, hs]

/-- A concrete adapter whose main document main.typ carries a UTF-8
BOM followed by the two bytes of the text hi. -/
def bomWorld : DockerWorld :=
  { fonts := { fonts := [] }
    book := []
    main := file_id "main.typ"
    now := none
    sources :=
      buildSources (DocumentFile.new "main.typ" [239, 187, 191, 104, 105]) [] }

/-- C4 witness: the theorem applied at the BOM-carrying document; the
text comes back BOM-stripped, the raw bytes come back intact. -/
theorem source_and_file_exact_witness :
    bomWorld.source asciiDecode (file_id "main.typ") =
      PRes.ok (Except.ok { id := file_id "main.typ", text := "hi" }) ∧
    bomWorld.file (file_id "main.typ") =
      PRes.ok (Except.ok [239, 187, 191, 104, 105]) :=
  source_and_file_exact bomWorld asciiDecode (file_id "main.typ")
    [239, 187, 191, 104, 105] "hi" (by decide) (by decide)

/-- C5: the store built by the constructor is exactly the
last-write-wins map of the insertion sequence main document first then
auxiliaries in order; in particular an auxiliary colliding with the
main identifier (with no later collision) makes the lookup of the main
identifier return that auxiliary payload. -/
theorem store_last_write_wins (main : DocumentFile)
    (others pre post : List DocumentFile) (d : Bytes) (k : FileId)
    (h : ∀ f ∈ post, f.name ≠ main.name) :
    buildSources main others k =
      specLastWriteWins k ((main :: others).map fun f => (f.name, f.data)) ∧
    buildSources main (pre ++ { name := main.name, data := d } :: post)
        main.name = some d := by
  constructor
  · simp only [buildSources]
    rw [insert_fold_eq]
    simp only [specLastWriteWins, List.map_cons, List.foldl_cons, mapInsert]
    by_cases hk : k = main.name
    · rw [if_pos hk, if_pos hk.symm]
    · rw [if_neg hk, if_neg fun hh => hk hh.symm]
  · simp only [buildSources]
    rw [insert_fold_eq]
    simp only [List.map_append, List.map_cons, List.foldl_append,
      List.foldl_cons, if_true]
    refine lastwins_no_key _ _ _ ?_
    intro p hp
    simp only [List.mem_map] at hp
    obtain ⟨f, hf, rfl⟩ := hp
    exact h f hf

/-- C5 witness: with main.typ mapped to the byte 1 and one auxiliary
also named main.typ mapped to the byte 2, the store resolves main.typ
to the auxiliary payload. -/
theorem store_last_write_wins_witness :
    buildSources (DocumentFile.new "main.typ" [1]) []
        (file_id "main.typ") =
      specLastWriteWins (file_id "main.typ")
        (((DocumentFile.new "main.typ" [1]) :: []).map
          fun f => (f.name, f.data)) ∧
    buildSources (DocumentFile.new "main.typ" [1])
        ([] ++ { name := (DocumentFile.new "main.typ" [1]).name, data := [2] }
          :: []) (DocumentFile.new "main.typ" [1]).name = some [2] :=
  store_last_write_wins (DocumentFile.new "main.typ" [1]) [] [] [] [2]
    (file_id "main.typ") (by intro f hf; cases hf)

/-- C10: every font index at or past the end of the descriptor vector
makes font(index) panic through the unguarded vector indexing of
FontDb::get; the query is not answered with a none value. -/
theorem font_out_of_range_panics (w : DockerWorld)
    (fs : String → Option Bytes) (fontNew : Bytes → Nat → Option Font)
    (index : Nat) (h : w.fonts.fonts.length ≤ index) :
    (w.font fs fontNew index).1 = PRes.panic "index out of bounds" ∧
    ∀ r, (w.font fs fontNew index).1 ≠ PRes.ok r := by
  have hnone : w.fonts.fonts[index]? = none := List.getElem?_eq_none h
  refine ⟨?_, ?_⟩
  · simp [DockerWorld.font, FontDb.get, hnone]
  · intro r
    simp [DockerWorld.font, FontDb.get, hnone]

/-- C10 witness: the adapter with an empty descriptor vector panics on
font index 0. -/
theorem font_out_of_range_panics_witness :
    (cexWorld.font (fun _ => none) (fun _ _ => none) 0).1 =
      PRes.panic "index out of bounds" ∧
    ∀ r, (cexWorld.font (fun _ => none) (fun _ _ => none) 0).1 ≠ PRes.ok r :=
  font_out_of_range_panics cexWorld (fun _ => none) (fun _ _ => none) 0
    (by decide)

/-- A filled slot answers from the cache: no read, no state change. -/
theorem LazyFont.get_filled (fs : String → Option Bytes)
    (fontNew : Bytes → Nat → Option Font) (lf : LazyFont) (c : Option Font)
    (h : lf.data = some c) : lf.get fs fontNew = (c, lf, 0) := by
  simp [LazyFont.get, h]

/-- C2: the lazy-load algorithm of the font query at an index holding
a descriptor. A filled slot answers from the cache with zero disk
reads; an empty slot costs exactly one read, a failed read yields none
and caches none, a successful read yields the font constructed from
the bytes at the recorded face index and caches that result; and the
immediately following query performs zero reads and returns the same
result even against a changed disk. -/
theorem font_query_lazy_memoized
    (fs fs2 : String → Option Bytes) (fontNew : Bytes → Nat → Option Font)
    (db : FontDb) (i : Nat) (lf : LazyFont)
    (hidx : db.fonts[i]? = some lf) :
    (∀ c, lf.data = some c →
        db.get fs fontNew i = (PRes.ok c, { fonts := db.fonts.set i lf }, 0)) ∧
    (lf.data = none →
        (db.get fs fontNew i).2.2 = 1 ∧
        (fs lf.path = none →
            (db.get fs fontNew i).1 = PRes.ok none ∧
            (db.get fs fontNew i).2.1.fonts =
              db.fonts.set i { lf with data := some none }) ∧
        (∀ b, fs lf.path = some b →
            (db.get fs fontNew i).1 = PRes.ok (fontNew b lf.index) ∧
            (db.get fs fontNew i).2.1.fonts =
              db.fonts.set i { lf with data := some (fontNew b lf.index) })) ∧
    (db.get fs fontNew i).2.1.get fs2 fontNew i =
      ((db.get fs fontNew i).1, (db.get fs fontNew i).2.1, 0) := by
  have hlt : i < db.fonts.length := by
    by_contra hh
    rw [List.getElem?_eq_none (Nat.le_of_not_lt hh)] at hidx
    exact Option.noConfusion hidx
  have hget : db.get fs fontNew i =
      (PRes.ok (lf.get fs fontNew).1,
        { fonts := db.fonts.set i (lf.get fs fontNew).2.1 },
        (lf.get fs fontNew).2.2) := by
    simp only [FontDb.get, hidx]
  have hfill : ((lf.get fs fontNew).2.1).data = some ((lf.get fs fontNew).1) := by
    cases hd : lf.data <;> simp [LazyFont.get, hd]
  refine ⟨?_, ?_, ?_⟩
  · intro c hc
    rw [hget]
    simp [LazyFont.get, hc]
  · intro hd
    rw [hget]
    refine ⟨by simp [LazyFont.get, hd], ?_, ?_⟩
    · intro hfs
      simp [LazyFont.get, hd, hfs]
    · intro b hfs
      simp [LazyFont.get, hd, hfs]
  · rw [hget]
    have hidx2 : (db.fonts.set i (lf.get fs fontNew).2.1)[i]? =
        some ((lf.get fs fontNew).2.1) :=
      List.getElem?_set_eq_of_lt _ hlt
    have h2 : ((lf.get fs fontNew).2.1).get fs2 fontNew =
        ((lf.get fs fontNew).1, (lf.get fs fontNew).2.1, 0) :=
      LazyFont.get_filled _ _ _ _ hfill
    simp only [FontDb.get, hidx2]
    simp [h2, List.set_set]

/-- C2 witness: on a database holding one empty-slot descriptor for
the path f.ttf, with a disk mapping every path to the byte 9 on the
first call and failing on the second, the follow-up query re-reads
nothing and returns the same result as the first. -/
theorem font_query_lazy_memoized_witness :
    (({ fonts := [{ index := 0, path := "f.ttf", data := none }] } :
          FontDb).get (fun _ => some [9]) (fun b j => some { data := b, index := j })
          0).2.1.get (fun _ => none) (fun b j => some { data := b, index := j }) 0 =
      ((({ fonts := [{ index := 0, path := "f.ttf", data := none }] } :
          FontDb).get (fun _ => some [9]) (fun b j => some { data := b, index := j })
          0).1,
        (({ fonts := [{ index := 0, path := "f.ttf", data := none }] } :
          FontDb).get (fun _ => some [9]) (fun b j => some { data := b, index := j })
          0).2.1, 0) :=
  (font_query_lazy_memoized (fun _ => some [9]) (fun _ => none)
    (fun b j => some { data := b, index := j })
    { fonts := [{ index := 0, path := "f.ttf", data := none }] } 0
    { index := 0, path := "f.ttf", data := none } (by decide)).2.2

/-- C3 (amended): during resolver construction a face whose bytes
live only in an in-memory binary blob is skipped; a file-backed face
whose bytes cannot be accessed at all is fatal (the panic
"Font load snafu"); but a file-backed face whose metadata extraction
returns no info is silently skipped — contributing neither book entry
nor descriptor — rather than being treated as fatal. -/
theorem construction_skip_and_fatal
    (infoNew : Bytes → Nat → Option FontInfo) (faceData : Face → Option Bytes)
    (f : Face) (rest : List Face) (book : List FontInfo)
    (fonts : List LazyFont) :
    (f.source = FaceSource.binary →
        FontDb.newLoop infoNew faceData (f :: rest) book fonts =
          FontDb.newLoop infoNew faceData rest book fonts) ∧
    (∀ p, (f.source = FaceSource.file p ∨ f.source = FaceSource.shared p) →
        faceData f = none →
        FontDb.newLoop infoNew faceData (f :: rest) book fonts =
          PRes.panic "Font load snafu") ∧
    (∀ p b, (f.source = FaceSource.file p ∨ f.source = FaceSource.shared p) →
        faceData f = some b → infoNew b f.index = none →
        FontDb.newLoop infoNew faceData (f :: rest) book fonts =
          FontDb.newLoop infoNew faceData rest book fonts) ∧
    (∀ p b info,
        (f.source = FaceSource.file p ∨ f.source = FaceSource.shared p) →
        faceData f = some b → infoNew b f.index = some info →
        FontDb.newLoop infoNew faceData (f :: rest) book fonts =
          FontDb.newLoop infoNew faceData rest (book ++ [info])
            (fonts ++ [{ index := f.index, path := p, data := none }])) := by
  rcases f with ⟨src, idx⟩
  refine ⟨?_, ?_, ?_, ?_⟩
  · intro hb
    simp only at hb
    subst hb
    rfl
  · rintro p (hp | hp) hfd <;>
      · simp only at hp
        subst hp
        simp [FontDb.newLoop, hfd]
  · rintro p b (hp | hp) hfd hinfo <;>
      · simp only at hp
        subst hp
        simp [FontDb.newLoop, hfd, hinfo]
  · rintro p b info (hp | hp) hfd hinfo <;>
      · simp only at hp
        subst hp
        simp [FontDb.newLoop, hfd, hinfo]

/-- C3 counterexample to the claim as stated: a concrete file-backed
face whose bytes are accessible but whose metadata extraction fails is
skipped silently — construction succeeds with an empty book and an
empty descriptor vector instead of treating the face as fatal. -/
theorem extraction_failure_skipped_counterexample :
    FontDb.new (fun _ _ => none) (fun _ => some [0])
        [{ source := FaceSource.file "corrupt.ttf", index := 0 }] [] =
      PRes.ok ([], { fonts := [] }) := rfl

/-- C3 witness: the amended theorem applied at a concrete file-backed
face with inaccessible bytes, producing the construction-time panic. -/
theorem construction_skip_and_fatal_witness :
    FontDb.newLoop (fun _ _ => none) (fun _ => none)
        [{ source := FaceSource.file "a.ttf", index := 0 }] [] [] =
      PRes.panic "Font load snafu" :=
  (construction_skip_and_fatal (fun _ _ => none) (fun _ => none)
      { source := FaceSource.file "a.ttf", index := 0 } [] [] []).2.1
    "a.ttf" (Or.inl rfl) rfl

/-- The construction loop, run on accumulators, appends exactly the
projections of the kept-face pair list when every file-backed face has
accessible bytes. -/
theorem newLoop_eq_kept (infoNew : Bytes → Nat → Option FontInfo)
    (faceData : Face → Option Bytes) (faces : List Face)
    (book : List FontInfo) (fonts : List LazyFont)
    (h : ∀ f ∈ faces, f.source ≠ FaceSource.binary → (faceData f).isSome) :
    FontDb.newLoop infoNew faceData faces book fonts =
      PRes.ok (book ++ (keptFaces infoNew faceData faces).map Prod.fst,
        fonts ++ (keptFaces infoNew faceData faces).map Prod.snd) := by
  induction faces generalizing book fonts with
  | nil => simp [FontDb.newLoop, keptFaces]
  | cons f rest ih =>
      have hrest : ∀ g ∈ rest, g.source ≠ FaceSource.binary →
          (faceData g).isSome :=
        fun g hg => h g (List.mem_cons_of_mem _ hg)
      rcases f with ⟨src, idx⟩
      cases src with
      | binary =>
          simp only [FontDb.newLoop, keptFaces]
          exact ih _ _ hrest
      | file p =>
          have hd := h ⟨FaceSource.file p, idx⟩ (List.mem_cons_self _ _)
            (by simp)
          cases hfd : faceData ⟨FaceSource.file p, idx⟩ with
          | none => rw [hfd] at hd; exact absurd hd (by simp)
          | some bytes =>
              cases hinfo : infoNew bytes idx with
              | none =>
                  simp only [FontDb.newLoop, keptFaces, hfd, hinfo]
                  exact ih _ _ hrest
              | some info =>
                  simp only [FontDb.newLoop, keptFaces, hfd, hinfo]
                  rw [ih _ _ hrest]
                  simp
      | shared p =>
          have hd := h ⟨FaceSource.shared p, idx⟩ (List.mem_cons_self _ _)
            (by simp)
          cases hfd : faceData ⟨FaceSource.shared p, idx⟩ with
          | none => rw [hfd] at hd; exact absurd hd (by simp)
          | some bytes =>
              cases hinfo : infoNew bytes idx with
              | none =>
                  simp only [FontDb.newLoop, keptFaces, hfd, hinfo]
                  exact ih _ _ hrest
              | some info =>
                  simp only [FontDb.newLoop, keptFaces, hfd, hinfo]
                  rw [ih _ _ hrest]
                  simp

/-- C9: when every file-backed face has accessible bytes (so that
construction completes), the Font Index and the descriptor vector are
the two projections of one kept-face pair list, so they are built only
together; at every position i the two collections hold the projections
of the same kept pair. -/
theorem book_descriptor_alignment (infoNew : Bytes → Nat → Option FontInfo)
    (faceData : Face → Option Bytes) (faces : List Face) (i : Nat)
    (h : ∀ f ∈ faces, f.source ≠ FaceSource.binary → (faceData f).isSome) :
    FontDb.new infoNew faceData faces [] =
      PRes.ok ((keptFaces infoNew faceData faces).map Prod.fst,
        { fonts := (keptFaces infoNew faceData faces).map Prod.snd }) ∧
    ((keptFaces infoNew faceData faces).map Prod.fst).length =
      ((keptFaces infoNew faceData faces).map Prod.snd).length ∧
    ((keptFaces infoNew faceData faces).map Prod.fst)[i]? =
      ((keptFaces infoNew faceData faces)[i]?).map Prod.fst ∧
    ((keptFaces infoNew faceData faces).map Prod.snd)[i]? =
      ((keptFaces infoNew faceData faces)[i]?).map Prod.snd := by
  refine ⟨?_, by simp, by simp [List.getElem?_map], by simp [List.getElem?_map]⟩
  simp only [FontDb.new, newLoop_eq_kept infoNew faceData faces [] [] h]
  simp

/-- C9 witness: the alignment theorem applied at a concrete face list
with one kept file-backed face and one skipped binary face. -/
theorem book_descriptor_alignment_witness :
    FontDb.new (fun b j => some { tag := b.length + j }) (fun _ => some [7])
        [{ source := FaceSource.file "a.ttf", index := 0 },
         { source := FaceSource.binary, index := 1 }] [] =
      PRes.ok
        ((keptFaces (fun b j => some { tag := b.length + j })
            (fun _ => some [7])
            [{ source := FaceSource.file "a.ttf", index := 0 },
             { source := FaceSource.binary, index := 1 }]).map Prod.fst,
          { fonts := (keptFaces (fun b j => some { tag := b.length + j })
              (fun _ => some [7])
              [{ source := FaceSource.file "a.ttf", index := 0 },
               { source := FaceSource.binary, index := 1 }]).map Prod.snd }) ∧
    ((keptFaces (fun b j => some { tag := b.length + j }) (fun _ => some [7])
        [{ source := FaceSource.file "a.ttf", index := 0 },
         { source := FaceSource.binary, index := 1 }]).map Prod.fst).length =
      ((keptFaces (fun b j => some { tag := b.length + j }) (fun _ => some [7])
          [{ source := FaceSource.file "a.ttf", index := 0 },
           { source := FaceSource.binary, index := 1 }]).map Prod.snd).length ∧
    ((keptFaces (fun b j => some { tag := b.length + j }) (fun _ => some [7])
        [{ source := FaceSource.file "a.ttf", index := 0 },
         { source := FaceSource.binary, index := 1 }]).map Prod.fst)[0]? =
      ((keptFaces (fun b j => some { tag := b.length + j }) (fun _ => some [7])
          [{ source := FaceSource.file "a.ttf", index := 0 },
           { source := FaceSource.binary, index := 1 }])[0]?).map Prod.fst ∧
    ((keptFaces (fun b j => some { tag := b.length + j }) (fun _ => some [7])
        [{ source := FaceSource.file "a.ttf", index := 0 },
         { source := FaceSource.binary, index := 1 }]).map Prod.snd)[0]? =
      ((keptFaces (fun b j => some { tag := b.length + j }) (fun _ => some [7])
          [{ source := FaceSource.file "a.ttf", index := 0 },
           { source := FaceSource.binary, index := 1 }])[0]?).map Prod.snd :=
  book_descriptor_alignment (fun b j => some { tag := b.length + j })
    (fun _ => some [7])
    [{ source := FaceSource.file "a.ttf", index := 0 },
     { source := FaceSource.binary, index := 1 }] 0 (by decide)

/-- C6: compile collapses every compiler failure to the single generic
error string, independent of the diagnostics; on success it returns
the exported artifact built from the document and the memoized now
result as creation timestamp, and when that result is no timestamp the
artifact is still produced, with none embedded. -/
theorem compile_collapses_diagnostics {Doc : Type} (w : DockerWorld)
    (pdfExport : Doc → Option Datetime → List Nat) (doc : Doc)
    (diags diags2 : List String) (wall : Moment) :
    (w.compile pdfExport (Except.error diags) wall).1 =
      Except.error "Something terrible has happened" ∧
    w.compile pdfExport (Except.error diags) wall =
      w.compile pdfExport (Except.error diags2) wall ∧
    (w.compile pdfExport (Except.ok doc) wall).1 =
      Except.ok (pdfExport doc (w.nowFn wall).1) ∧
    ((w.nowFn wall).1 = none →
        (w.compile pdfExport (Except.ok doc) wall).1 =
          Except.ok (pdfExport doc none)) := by
  refine ⟨rfl, rfl, rfl, ?_⟩
  intro h1
  simp [DockerWorld.compile, h1]


/-- A moment in calendar year 10000, outside the valid timestamp
range, so the clock conversion yields no timestamp. -/
def farMoment : Moment :=
  { naiveLocal := 253402300800, naiveUtc := 253402300800 }

/-- A stub PDF exporter distinguishing a present timestamp from an
absent one. -/
def stubPdf : Unit → Option Datetime → List Nat :=
  fun _ ts => match ts with | some _ => [1] | none => [0]

/-- C6 witness: at a moment whose calendar year is 10000 the clock
yields no timestamp, the failure branch returns the generic error for
two different diagnostics lists, and the success branch still produces
an artifact, with no timestamp embedded. -/
theorem compile_collapses_diagnostics_witness :
    (cexWorld.compile stubPdf (Except.error ["syntax error"]) farMoment).1 =
      Except.error "Something terrible has happened" ∧
    cexWorld.compile stubPdf (Except.error ["syntax error"]) farMoment =
      cexWorld.compile stubPdf
        (Except.error ["missing font", "unresolved reference"]) farMoment ∧
    (cexWorld.compile stubPdf (Except.ok ()) farMoment).1 =
      Except.ok (stubPdf () (cexWorld.nowFn farMoment).1) ∧
    ((cexWorld.nowFn farMoment).1 = none →
        (cexWorld.compile stubPdf (Except.ok ()) farMoment).1 =
          Except.ok (stubPdf () none)) :=
  compile_collapses_diagnostics cexWorld stubPdf ()
    ["syntax error"] ["missing font", "unresolved reference"] farMoment

/-- C7: today uses the memoized base moment: with no offset the result
is the conversion chain on the naive local time of the cached moment,
with offset o the chain on the naive UTC time plus o hours, the cell
is left untouched, and within the chain each failing field conversion
yields none (and a successful chain ends in the validating from_ymd,
which itself yields none on an out-of-range date) rather than any
panic. -/
theorem today_uses_memoized_moment (w : DockerWorld) (wall m : Moment)
    (o : Int) (n : Int) (mo d : Nat) (h : w.now = some m) :
    (w.today wall none).1 = todayResult m.naiveLocal ∧
    (w.today wall (some o)).1 = todayResult (m.naiveUtc + 3600 * o) ∧
    (w.today wall none).2 = w ∧
    (w.today wall (some o)).2 = w ∧
    (tryIntoU8 (monthOfSecs n) = none → todayResult n = none) ∧
    (tryIntoU8 (dayOfSecs n) = none → todayResult n = none) ∧
    (tryIntoU8 (monthOfSecs n) = some mo → tryIntoU8 (dayOfSecs n) = some d →
        todayResult n = Datetime.from_ymd (yearOfSecs n) mo d) := by
  refine ⟨?_, ?_, ?_, ?_, ?_, ?_, ?_⟩
  · simp [DockerWorld.today, DockerWorld.getOrInitNow, h]
  · simp [DockerWorld.today, DockerWorld.getOrInitNow, h]
  · simp [DockerWorld.today, DockerWorld.getOrInitNow, h]
  · simp [DockerWorld.today, DockerWorld.getOrInitNow, h]
  · intro h1
    simp [todayResult, h1]
  · intro h1
    cases h2 : tryIntoU8 (monthOfSecs n) <;> simp [todayResult, h1, h2]
  · intro h1 h2
    simp [todayResult, h1, h2]

/-- The Unix epoch moment. -/
def epochMoment : Moment := { naiveLocal := 0, naiveUtc := 0 }

/-- The moment one day after the epoch. -/
def dayMoment : Moment := { naiveLocal := 86400, naiveUtc := 86400 }

/-- An adapter whose clock cell already caches the epoch moment. -/
def epochCachedWorld : DockerWorld :=
  { fonts := { fonts := [] }
    book := []
    main := file_id "main.typ"
    now := some epochMoment
    sources := fun _ => none }

/-- C7 witness: with the epoch moment cached, today answers from the
cached moment (ignoring a wall clock one day later), and the epoch
conversion chain lands on the validated date. -/
theorem today_uses_memoized_moment_witness :
    (epochCachedWorld.today dayMoment none).1 =
      todayResult epochMoment.naiveLocal ∧
    (epochCachedWorld.today dayMoment (some 24)).1 =
      todayResult (epochMoment.naiveUtc + 3600 * 24) ∧
    (epochCachedWorld.today dayMoment none).2 = epochCachedWorld ∧
    (epochCachedWorld.today dayMoment (some 24)).2 = epochCachedWorld ∧
    (tryIntoU8 (monthOfSecs 0) = none → todayResult 0 = none) ∧
    (tryIntoU8 (dayOfSecs 0) = none → todayResult 0 = none) ∧
    (tryIntoU8 (monthOfSecs 0) = some 1 → tryIntoU8 (dayOfSecs 0) = some 1 →
        todayResult 0 = Datetime.from_ymd (yearOfSecs 0) 1 1) :=
  today_uses_memoized_moment epochCachedWorld dayMoment epochMoment
    24 0 1 1 rfl

/-- C8: the wall-clock moment is captured by the first call to now or
today and cached; after that first call, now and today compute from
the cached moment, so their results do not depend on the wall clock a
later call would observe. -/
theorem clock_memoized (w : DockerWorld) (wall wall2 : Moment)
    (o o2 : Option Int) (h : w.now = none) :
    (w.nowFn wall).2.now = some wall ∧
    (w.today wall o).2.now = some wall ∧
    ((w.nowFn wall).2.nowFn wall2).1 = (w.nowFn wall).1 ∧
    ((w.nowFn wall).2.nowFn wall2).2 = (w.nowFn wall).2 ∧
    ((w.nowFn wall).2.today wall2 o).1 = (w.today wall o).1 ∧
    ((w.today wall o).2.nowFn wall2).1 = (w.nowFn wall).1 ∧
    ((w.today wall o).2.today wall2 o2).1 =
      ((w.today wall o).2.today wall o2).1 := by
  refine ⟨?_, ?_, ?_, ?_, ?_, ?_, ?_⟩ <;>
    simp [DockerWorld.nowFn, DockerWorld.today, DockerWorld.getOrInitNow, h]

/-- C8 witness: starting from the adapter with an empty clock cell,
the first call pins the epoch moment and every following call a day
later still answers from the epoch moment. -/
theorem clock_memoized_witness :
    (cexWorld.nowFn epochMoment).2.now = some epochMoment ∧
    (cexWorld.today epochMoment (some 1)).2.now = some epochMoment ∧
    ((cexWorld.nowFn epochMoment).2.nowFn dayMoment).1 =
      (cexWorld.nowFn epochMoment).1 ∧
    ((cexWorld.nowFn epochMoment).2.nowFn dayMoment).2 =
      (cexWorld.nowFn epochMoment).2 ∧
    ((cexWorld.nowFn epochMoment).2.today dayMoment (some 1)).1 =
      (cexWorld.today epochMoment (some 1)).1 ∧
    ((cexWorld.today epochMoment (some 1)).2.nowFn dayMoment).1 =
      (cexWorld.nowFn epochMoment).1 ∧
    ((cexWorld.today epochMoment (some 1)).2.today dayMoment none).1 =
      ((cexWorld.today epochMoment (some 1)).2.today epochMoment none).1 :=
  clock_memoized cexWorld epochMoment dayMoment (some 1) none rfl
